import Mathlib

set_option maxRecDepth 1000000

/-!
Verification of the Web-to-Android converter generation pipeline
(supabase/functions/generate-android-app/index.ts).

The TypeScript source is shallowly embedded: pure string manipulation
becomes Lean functions on `String` / `List Char`, byte buffers become
`List Nat` (each element < 256), and the effectful publish phase
(Supabase storage calls, retry sleeps) becomes a pure function from a
storage environment to a result together with an explicit event trace.
-/

namespace WebToAndroid

/-! ## Sanitizer (index.ts lines 34-35)

The source derives identifiers with
`config.appName.toLowerCase().replace(/[^a-z0-9]/g, '')`.
`Char.toLower` is the ASCII model of JavaScript `toLowerCase`. -/

/-- Characters kept by the regex `[^a-z0-9]` replacement: lowercase ASCII
letters and digits. -/
def isLowerAlnum (c : Char) : Bool :=
  (Char.ofNat 97 ≤ c && c ≤ Char.ofNat 122) || (Char.ofNat 48 ≤ c && c ≤ Char.ofNat 57)

/-- Embedding of `name.toLowerCase().replace(/[^a-z0-9]/g, '')`. -/
def sanitize (s : String) : String :=
  ⟨(s.data.map Char.toLower).filter (fun c => isLowerAlnum c)⟩

/-- Embedding of the `appId` template literal at index.ts line 34:
the decimal `Date.now()` timestamp, a dash, and the sanitized app name. -/
def deriveBuildId (nowMillis : Nat) (appName : String) : String :=
  toString nowMillis ++ "-" ++ sanitize appName

/-- Embedding of the `packageName` template literal at index.ts line 35. -/
def derivePackageName (appName : String) : String :=
  "com.webview." ++ sanitize appName

/-! ## Generic single-character split, mirroring JavaScript `String.split(c)` -/

/-- Embedding of JavaScript `s.split(sep)` for a single-character
separator, on the character-list representation of strings. -/
def splitOnChar (sep : Char) : List Char → List (List Char)
  | [] => [[]]
  | c :: rest =>
    if c = sep then [] :: splitOnChar sep rest
    else
      match splitOnChar sep rest with
      | [] => [[c]]
      | g :: gs => (c :: g) :: gs

/-- Embedding of `packageName.split('.').join('/')` at index.ts line 95. -/
def packagePath (pkgName : String) : String :=
  ⟨(splitOnChar (Char.ofNat 46) pkgName.data).intersperse [Char.ofNat 47] |>.flatten⟩

/-! ## Base64 codec (Node `Buffer.from(payload, 'base64')`, index.ts line 178)

Bytes are modelled as natural numbers below 256.  Decoding follows Node
semantics on well-formed input: characters outside the base64 alphabet
(including the padding `=`) contribute nothing, and every group of four
sextets yields three bytes, a trailing group of three yields two, a
trailing group of two yields one. -/

/-- The standard base64 alphabet, indexed by sextet value. -/
def charOfSextet (n : Nat) : Char :=
  if n < 26 then Char.ofNat (65 + n)
  else if n < 52 then Char.ofNat (97 + (n - 26))
  else if n < 62 then Char.ofNat (48 + (n - 52))
  else if n = 62 then Char.ofNat 43
  else Char.ofNat 47

/-- Partial inverse of the base64 alphabet; `none` for characters the
decoder skips. -/
def sextetOfChar (c : Char) : Option Nat :=
  if Char.ofNat 65 ≤ c && c ≤ Char.ofNat 90 then some (c.toNat - 65)
  else if Char.ofNat 97 ≤ c && c ≤ Char.ofNat 122 then some (c.toNat - 97 + 26)
  else if Char.ofNat 48 ≤ c && c ≤ Char.ofNat 57 then some (c.toNat - 48 + 52)
  else if c = Char.ofNat 43 then some 62
  else if c = Char.ofNat 47 then some 63
  else none

/-- Recombines a stream of sextets into bytes, three per group of four. -/
def sextetsToBytes : List Nat → List Nat
  | s1 :: s2 :: s3 :: s4 :: rest =>
    (s1 * 4 + s2 / 16) :: (s2 % 16 * 16 + s3 / 4) :: (s3 % 4 * 64 + s4) ::
      sextetsToBytes rest
  | [s1, s2, s3] => [s1 * 4 + s2 / 16, s2 % 16 * 16 + s3 / 4]
  | [s1, s2] => [s1 * 4 + s2 / 16]
  | _ => []

/-- Embedding of `Buffer.from(payload, 'base64')`. -/
def base64Decode (payload : List Char) : List Nat :=
  sextetsToBytes (payload.filterMap sextetOfChar)

/-- Standard base64 encoding with `=` padding, used to state the
round-trip property for well-formed data URIs. -/
def base64Encode : List Nat → List Char
  | [] => []
  | [b1] => [charOfSextet (b1 / 4), charOfSextet (b1 % 4 * 16),
      Char.ofNat 61, Char.ofNat 61]
  | [b1, b2] => [charOfSextet (b1 / 4), charOfSextet (b1 % 4 * 16 + b2 / 16),
      charOfSextet (b2 % 16 * 4), Char.ofNat 61]
  | b1 :: b2 :: b3 :: rest =>
    charOfSextet (b1 / 4) :: charOfSextet (b1 % 4 * 16 + b2 / 16) ::
      charOfSextet (b2 % 16 * 4 + b3 / 64) :: charOfSextet (b3 % 64) ::
      base64Encode rest

/-! ## Template renderer (index.ts lines 52-232)

Each template literal of the source is transcribed verbatim; `\x7b` and
`\x7d` denote literal braces and `\x27` a literal single quote. -/

/-- Fixed text of the manifest template before the `packageName`
interpolation (index.ts lines 52-54). -/
def manifestPre : String :=
  "<?xml version=\"1.0\" encoding=\"utf-8\"?>\n" ++
  "<manifest xmlns:android=\"http://schemas.android.com/apk/res/android\"\n" ++
  "    package=\""

/-- Fixed manifest text between the package interpolation and the first
conditional permission line (index.ts lines 54-57). -/
def manifestMid1 : String :=
  "\">\n\n    <uses-permission android:name=\"android.permission.INTERNET\" />\n    "

/-- The conditional POST_NOTIFICATIONS permission line (index.ts line 57). -/
def notifLine : String :=
  "<uses-permission android:name=\"android.permission.POST_NOTIFICATIONS\" />"

/-- Fixed manifest text between the two conditional lines (index.ts lines 57-58). -/
def manifestMid2 : String := "\n    "

/-- The conditional MEDIA_CONTENT_CONTROL permission line (index.ts line 58). -/
def musicLine : String :=
  "<uses-permission android:name=\"android.permission.MEDIA_CONTENT_CONTROL\" />"

/-- Fixed manifest text after the second conditional line (index.ts lines 58-77). -/
def manifestTail : String :=
  "\n\n    <application\n" ++
  "        android:allowBackup=\"true\"\n" ++
  "        android:icon=\"@mipmap/ic_launcher\"\n" ++
  "        android:label=\"@string/app_name\"\n" ++
  "        android:supportsRtl=\"true\"\n" ++
  "        android:theme=\"@style/Theme.AppCompat.Light.NoActionBar\"\n" ++
  "        android:usesCleartextTraffic=\"true\">\n" ++
  "        <activity\n" ++
  "            android:name=\".MainActivity\"\n" ++
  "            android:exported=\"true\"\n" ++
  "            android:configChanges=\"orientation|keyboardHidden|keyboard|screenSize|locale\">\n" ++
  "            <intent-filter>\n" ++
  "                <action android:name=\"android.intent.action.MAIN\" />\n" ++
  "                <category android:name=\"android.intent.category.LAUNCHER\" />\n" ++
  "            </intent-filter>\n" ++
  "        </activity>\n" ++
  "    </application>\n" ++
  "</manifest>"

/-- Embedding of the `manifestContent` template literal (index.ts lines 52-77). -/
def manifestContent (pkgName : String) (enableNotifications enableMusicControls : Bool) :
    String :=
  manifestPre ++ pkgName ++ manifestMid1 ++
  (if enableNotifications then notifLine else "") ++ manifestMid2 ++
  (if enableMusicControls then musicLine else "") ++ manifestTail

/-- Embedding of the `networkSecurityConfig` template (index.ts lines 82-90). -/
def networkSecurityConfig : String :=
  "<?xml version=\"1.0\" encoding=\"utf-8\"?>\n" ++
  "<network-security-config>\n" ++
  "    <base-config cleartextTrafficPermitted=\"true\">\n" ++
  "        <trust-anchors>\n" ++
  "            <certificates src=\"system\" />\n" ++
  "            <certificates src=\"user\" />\n" ++
  "        </trust-anchors>\n" ++
  "    </base-config>\n" ++
  "</network-security-config>"

/-- Embedding of the `mainActivityContent` template (index.ts lines 98-137). -/
def mainActivityContent (pkgName websiteUrl : String) : String :=
  "package " ++ pkgName ++ ";\n\n" ++
  "import android.os.Bundle;\nimport android.webkit.WebView;\n" ++
  "import android.webkit.WebViewClient;\nimport android.webkit.WebSettings;\n" ++
  "import androidx.appcompat.app.AppCompatActivity;\n\n" ++
  "public class MainActivity extends AppCompatActivity \x7b\n" ++
  "    private WebView webView;\n\n" ++
  "    @Override\n" ++
  "    protected void onCreate(Bundle savedInstanceState) \x7b\n" ++
  "        super.onCreate(savedInstanceState);\n" ++
  "        setContentView(R.layout.activity_main);\n" ++
  "        \n" ++
  "        webView = findViewById(R.id.webview);\n" ++
  "        WebSettings webSettings = webView.getSettings();\n" ++
  "        webSettings.setJavaScriptEnabled(true);\n" ++
  "        webSettings.setDomStorageEnabled(true);\n" ++
  "        webSettings.setLoadWithOverviewMode(true);\n" ++
  "        webSettings.setUseWideViewPort(true);\n" ++
  "        webSettings.setBuiltInZoomControls(true);\n" ++
  "        webSettings.setDisplayZoomControls(false);\n" ++
  "        webSettings.setSupportZoom(true);\n" ++
  "        webSettings.setDefaultTextEncodingName(\"utf-8\");\n" ++
  "        \n" ++
  "        webView.setWebViewClient(new WebViewClient());\n" ++
  "        webView.loadUrl(\"" ++ websiteUrl ++ "\");\n" ++
  "    \x7d\n\n" ++
  "    @Override\n" ++
  "    public void onBackPressed() \x7b\n" ++
  "        if (webView.canGoBack()) \x7b\n" ++
  "            webView.goBack();\n" ++
  "        \x7d else \x7b\n" ++
  "            super.onBackPressed();\n" ++
  "        \x7d\n" ++
  "    \x7d\n" ++
  "\x7d"

/-- Embedding of the `activityMainLayout` template (index.ts lines 142-152). -/
def activityMainLayout : String :=
  "<?xml version=\"1.0\" encoding=\"utf-8\"?>\n" ++
  "<RelativeLayout xmlns:android=\"http://schemas.android.com/apk/res/android\"\n" ++
  "    android:layout_width=\"match_parent\"\n" ++
  "    android:layout_height=\"match_parent\">\n\n" ++
  "    <WebView\n" ++
  "        android:id=\"@+id/webview\"\n" ++
  "        android:layout_width=\"match_parent\"\n" ++
  "        android:layout_height=\"match_parent\" />\n\n" ++
  "</RelativeLayout>"

/-- Embedding of the `stringsContent` template (index.ts lines 157-160). -/
def stringsContent (appName : String) : String :=
  "<?xml version=\"1.0\" encoding=\"utf-8\"?>\n" ++
  "<resources>\n" ++
  "    <string name=\"app_name\">" ++ appName ++ "</string>\n" ++
  "</resources>"

/-- Embedding of the `stylesContent` template (index.ts lines 165-172). -/
def stylesContent : String :=
  "<?xml version=\"1.0\" encoding=\"utf-8\"?>\n" ++
  "<resources>\n" ++
  "    <style name=\"AppTheme\" parent=\"Theme.AppCompat.Light.NoActionBar\">\n" ++
  "        <item name=\"colorPrimary\">#2196F3</item>\n" ++
  "        <item name=\"colorPrimaryDark\">#1976D2</item>\n" ++
  "        <item name=\"colorAccent\">#FF4081</item>\n" ++
  "    </style>\n" ++
  "</resources>"

/-- Embedding of the `buildGradleContent` template (index.ts lines 183-214). -/
def buildGradleContent (pkgName : String) : String :=
  "plugins \x7b\n" ++
  "    id \x27com.android.application\x27\n" ++
  "\x7d\n\n" ++
  "android \x7b\n" ++
  "    namespace \x27" ++ pkgName ++ "\x27\n" ++
  "    compileSdk 33\n\n" ++
  "    defaultConfig \x7b\n" ++
  "        applicationId \"" ++ pkgName ++ "\"\n" ++
  "        minSdk 21\n" ++
  "        targetSdk 33\n" ++
  "        versionCode 1\n" ++
  "        versionName \"1.0\"\n" ++
  "    \x7d\n\n" ++
  "    buildTypes \x7b\n" ++
  "        release \x7b\n" ++
  "            minifyEnabled true\n" ++
  "            proguardFiles getDefaultProguardFile(\x27proguard-android-optimize.txt\x27), \x27proguard-rules.pro\x27\n" ++
  "        \x7d\n" ++
  "    \x7d\n" ++
  "    compileOptions \x7b\n" ++
  "        sourceCompatibility JavaVersion.VERSION_1_8\n" ++
  "        targetCompatibility JavaVersion.VERSION_1_8\n" ++
  "    \x7d\n" ++
  "\x7d\n\n" ++
  "dependencies \x7b\n" ++
  "    implementation \x27androidx.appcompat:appcompat:1.6.1\x27\n" ++
  "    implementation \x27androidx.webkit:webkit:1.7.0\x27\n" ++
  "\x7d"

/-- Embedding of the `settingsGradleContent` template (index.ts lines 219-220). -/
def settingsGradleContent (appName : String) : String :=
  "rootProject.name = \"" ++ appName ++ "\"\ninclude \x27:app\x27"

/-- Embedding of the `gradleWrapperContent` template (index.ts lines 225-229). -/
def gradleWrapperContent : String :=
  "distributionBase=GRADLE_USER_HOME\n" ++
  "distributionPath=wrapper/dists\n" ++
  "distributionUrl=https\\://services.gradle.org/distributions/gradle-8.0-bin.zip\n" ++
  "zipStoreBase=GRADLE_USER_HOME\n" ++
  "zipStorePath=wrapper/dists"

/-! ## Archive assembly (index.ts lines 38-242)

The JSZip object is modelled as the list of (path, content) entries in
insertion order; `zip.generateAsync` with DEFLATE compression is the
identity on this model, since deflate round-trips byte-identically. -/

/-- Content of one archive entry: rendered text or raw bytes. -/
inductive FileContent where
  | text (s : String)
  | bin (bytes : List Nat)
deriving DecidableEq, Repr

/-- Failure modes of the generation pipeline (thrown errors in the source). -/
inductive PipelineError where
  | iconDecodeThrow
  | bucketCreateFailed (msg : String)
  | uploadFailed (msg : String)
deriving DecidableEq, Repr

/-- The request body parsed by the handler (interface AppConfig,
index.ts lines 13-19).  An absent string field is modelled by `""`,
which is exactly the falsy case of the handler validation. -/
structure AppConfig where
  websiteUrl : String
  appName : String
  icon : String
  enableNotifications : Bool
  enableMusicControls : Bool
deriving DecidableEq, Repr

/-- The fixed archive path of the launcher icon (index.ts lines 48, 179). -/
def mipmapIconPath : String := "app/src/main/res/mipmap-xxxhdpi/ic_launcher.png"

/-- The archive path of MainActivity.java, inside the directory derived
from the package name (index.ts lines 95-96, 139). -/
def javaMainActivityPath (pkgName : String) : String :=
  "app/src/main/java/" ++ packagePath pkgName ++ "/MainActivity.java"

/-- Embedding of the icon step (index.ts lines 177-180): the icon entry
is added only when `config.icon` is truthy and starts with `data:image`;
`config.icon.split(',')[1]` being undefined makes `Buffer.from` throw,
modelled as `iconDecodeThrow`. -/
def iconEntries (icon : String) : Except PipelineError (List (String × FileContent)) :=
  if icon = "" then .ok []
  else if "data:image".data.isPrefixOf icon.data then
    match (splitOnChar (Char.ofNat 44) icon.data).get? 1 with
    | some payload => .ok [(mipmapIconPath, .bin (base64Decode payload))]
    | none => .error .iconDecodeThrow
  else .ok []

/-- The archive entries added by `generateAndroidApp`, in insertion order
(index.ts lines 38-232). -/
def archiveEntries (cfg : AppConfig) : Except PipelineError (List (String × FileContent)) :=
  let pkg := derivePackageName cfg.appName
  match iconEntries cfg.icon with
  | .error e => .error e
  | .ok iconE =>
    .ok ([("app/src/main/AndroidManifest.xml",
            .text (manifestContent pkg cfg.enableNotifications cfg.enableMusicControls)),
          ("app/src/main/res/xml/network_security_config.xml",
            .text networkSecurityConfig),
          (javaMainActivityPath pkg, .text (mainActivityContent pkg cfg.websiteUrl)),
          ("app/src/main/res/layout/activity_main.xml", .text activityMainLayout),
          ("app/src/main/res/values/strings.xml", .text (stringsContent cfg.appName)),
          ("app/src/main/res/values/styles.xml", .text stylesContent)]
         ++ iconE ++
         [("app/build.gradle", .text (buildGradleContent pkg)),
          ("settings.gradle", .text (settingsGradleContent cfg.appName)),
          ("gradle/wrapper/gradle-wrapper.properties", .text gradleWrapperContent)])

/-! ## Publisher and pipeline (index.ts lines 244-315, 317-384)

The storage collaborator is a pure environment: the data field of
`listBuckets` (the error field is never read by the source), the error
field of `createBucket`, the outcome of each upload attempt, and the
public-URL resolver.  A run produces a result and a trace of storage
events and retry sleeps. -/

/-- Outcome of one `upload` call: success, an error result
(`result.error` non-null), or a thrown exception. -/
inductive UploadOutcome where
  | ok
  | err (msg : String)
  | thrown (msg : String)
deriving DecidableEq, Repr

/-- The storage collaborator as seen by the pipeline.
`listBucketsError` is carried to show that the source never reads it. -/
structure StorageEnv where
  listBucketsData : Option (List String)
  listBucketsError : Option String
  createBucketError : Option String
  uploadOutcome : Nat → UploadOutcome
  publicUrl : String → String

/-- Observable storage operations and sleeps, in execution order. -/
inductive Event where
  | listBuckets
  | createBucket (name : String)
  | upload (path : String) (payload : List (String × FileContent))
  | sleep (ms : Nat)
deriving DecidableEq, Repr

/-- The successful JSON body of `generateAndroidApp` (index.ts lines 305-310). -/
structure GenSuccess where
  downloadUrl : String
  appName : String
  packageName : String
deriving DecidableEq, Repr

/-- Message of the final upload failure (index.ts line 294):
`Failed to upload APK: ${uploadError.message || 'Unknown error'}`. -/
def uploadFailMsg (m : String) : String :=
  "Failed to upload APK: " ++ (if m = "" then "Unknown error" else m)

/-- Embedding of the upload retry loop (index.ts lines 265-291).
`fuel` counts the remaining iterations of `for (let i = 0; i < 3; i++)`
and `i` is the current attempt index; the result is the final value of
`uploadError` together with the upload and sleep events.  An error
result sleeps `1000 * (i + 1)` ms before the next iteration; a thrown
exception is caught and proceeds without sleeping; a success breaks
out of the loop at once. -/
def retryAux (f : Nat → UploadOutcome) (path : String)
    (payload : List (String × FileContent)) :
    Nat → Nat → Option String → Option String × List Event
  | 0, _, lastErr => (lastErr, [])
  | fuel + 1, i, _ =>
    match f i with
    | .ok => (none, [Event.upload path payload])
    | .err m =>
      let r := retryAux f path payload fuel (i + 1) (some m)
      (r.1, Event.upload path payload :: Event.sleep (1000 * (i + 1)) :: r.2)
    | .thrown m =>
      let r := retryAux f path payload fuel (i + 1) (some m)
      (r.1, Event.upload path payload :: r.2)

/-- The three-attempt retry loop as entered by the source. -/
def retryLoop (f : Nat → UploadOutcome) (path : String)
    (payload : List (String × FileContent)) : Option String × List Event :=
  retryAux f path payload 3 0 none

/-- Embedding of `generateAndroidApp` (index.ts lines 31-315): derive
identifiers, assemble the archive, ensure the `android-apps` bucket
exists (the listing error is ignored; a `buckets?.find` on null data
behaves as if the bucket were absent), upload with retry, and resolve
the public URL. -/
def generateApp (cfg : AppConfig) (nowMillis : Nat) (env : StorageEnv) :
    Except PipelineError GenSuccess × List Event :=
  let appId := deriveBuildId nowMillis cfg.appName
  let pkg := derivePackageName cfg.appName
  match archiveEntries cfg with
  | .error e => (.error e, [])
  | .ok payload =>
    let path := appId ++ "/app-debug.apk"
    let bucketFound := (env.listBucketsData.getD []).contains "android-apps"
    let preEvents :=
      if bucketFound then [Event.listBuckets]
      else [Event.listBuckets, Event.createBucket "android-apps"]
    if bucketFound = false ∧ env.createBucketError.isSome then
      (.error (.bucketCreateFailed
        ("Failed to create storage bucket: " ++ env.createBucketError.getD "")),
       preEvents)
    else
      match retryLoop env.uploadOutcome path payload with
      | (some m, tr) => (.error (.uploadFailed (uploadFailMsg m)), preEvents ++ tr)
      | (none, tr) =>
        (.ok ⟨env.publicUrl path, cfg.appName, pkg⟩, preEvents ++ tr)

/-- The JSON body of the handler response. -/
inductive RespBody where
  | errorMsg (msg : String)
  | internalError (details : String)
  | payload (r : GenSuccess)
deriving DecidableEq, Repr

/-- Embedding of the POST branch of the `Deno.serve` handler
(index.ts lines 323-356, 368-383): presence validation of
`websiteUrl`, `appName`, `icon` (400 on any falsy field), then the
pipeline, mapping a thrown pipeline error to a 500 response. -/
def handlePost (cfg : AppConfig) (nowMillis : Nat) (env : StorageEnv) :
    (Nat × RespBody) × List Event :=
  if cfg.websiteUrl = "" ∨ cfg.appName = "" ∨ cfg.icon = "" then
    ((400, .errorMsg "Missing required fields"), [])
  else
    match generateApp cfg nowMillis env with
    | (.ok r, tr) => ((200, .payload r), tr)
    | (.error e, tr) =>
      let details :=
        match e with
        | .iconDecodeThrow => "icon payload is not a string"
        | .bucketCreateFailed m => m
        | .uploadFailed m => m
      ((500, .internalError details), tr)

/-! ## Counting substring occurrences

`countOcc L s` counts the positions of `s` at which the pattern `L`
occurs, used to state that the manifest contains a permission line
exactly once or not at all. -/

/-- Decidable certificate that no nonempty proper-length suffix of `A`
is a prefix of `L`; such a suffix is the only way an occurrence of `L`
could start inside `A` and continue past its end. -/
def noSeedMatch (L A : List Char) : Bool :=
  A.tails.all fun s => s.isEmpty || decide (L.length ≤ s.length) || !(L.take s.length == s)

/-- A well-formed image data URI wrapping the given bytes, used to state
the round-trip property. -/
def mkImageDataUri (bytes : List Nat) : String :=
  "data:image/png;base64," ++ ⟨base64Encode bytes⟩

/-- A config whose icon passes the presence check but is not an image
data URI. -/
def cfgBadIcon : AppConfig :=
  ⟨"https://example.com", "Demo", "x", false, false⟩

/-- A storage environment in which every operation succeeds and the
bucket already exists. -/
def okEnv : StorageEnv :=
  ⟨some ["android-apps"], none, none, fun _ => .ok,
    fun p => "https://storage.example/" ++ p⟩

/-- The object path the archive is uploaded to (index.ts line 271). -/
def uploadPathOf (cfg : AppConfig) (nowMillis : Nat) : String :=
  deriveBuildId nowMillis cfg.appName ++ "/app-debug.apk"

/-- A fully valid demo configuration. -/
def cfgDemo : AppConfig :=
  ⟨"https://example.com", "Demo App", "data:image/png;base64,AAAA", true, false⟩

/-- The archive payload of a config, or `[]` when assembly throws. -/
def payloadOf (cfg : AppConfig) : List (String × FileContent) :=
  match archiveEntries cfg with
  | .ok l => l
  | .error _ => []

/-- Milliseconds of a sleep event, `none` for everything else. -/
def eventSleepMs : Event → Option Nat
  | .sleep n => some n
  | _ => none

/-- The (path, archive payload) pairs of the upload events of a trace. -/
def uploadEvents (tr : List Event) : List (String × List (String × FileContent)) :=
  tr.filterMap fun e =>
    match e with
    | .upload p pl => some (p, pl)
    | _ => none

/-- A second storage environment, with a failed listing and one failed
upload, used to witness determinism across different environments. -/
def altEnv : StorageEnv :=
  ⟨none, some "listing down", none, fun i => if i = 0 then .err "once" else .ok,
    fun p => "alt://" ++ p⟩

/-- Number of positions of `s` at which `L` occurs as a contiguous
substring. -/
def countOcc (L : List Char) : List Char → Nat
  | [] => 0
  | c :: s => (if L.isPrefixOf (c :: s) then 1 else 0) + countOcc L s

/-- Rewriting helper: string concatenation concatenates the character
data. -/
theorem string_data_append (a b : String) : (a ++ b).data = a.data ++ b.data := rfl

theorem prefix_append_iff_of_le (L s u : List Char) (h : L.length ≤ s.length) :
    L <+: s ++ u ↔ L <+: s := by
  constructor
  · intro hp
    rw [List.prefix_iff_eq_take] at hp ⊢
    rwa [List.take_append_of_le_length h] at hp
  · intro hp
    exact hp.trans (List.prefix_append s u)

theorem take_eq_of_prefix_append (L s u : List Char) (h : s.length ≤ L.length)
    (hp : L <+: s ++ u) : L.take s.length = s := by
  rw [List.prefix_iff_eq_take] at hp
  conv_lhs => rw [hp]
  rw [List.take_take, Nat.min_comm, Nat.min_eq_right h, List.take_left]

/-- On a nonempty segment `s` whose short suffix form never matches a
short prefix of `L`, appending more text after `s` does not change
whether `L` matches at the start. -/
theorem isPrefixOf_append_eq (L s u : List Char) (hS : s.length < L.length → L.take s.length ≠ s) :
    L.isPrefixOf (s ++ u) = L.isPrefixOf s := by
  by_cases hlen : L.length ≤ s.length
  · cases hb : L.isPrefixOf s with
    | true =>
      exact List.isPrefixOf_iff_prefix.mpr
        ((prefix_append_iff_of_le L s u hlen).mpr (List.isPrefixOf_iff_prefix.mp hb))
    | false =>
      cases hb2 : L.isPrefixOf (s ++ u) with
      | true =>
        exact absurd (List.isPrefixOf_iff_prefix.mpr
          ((prefix_append_iff_of_le L s u hlen).mp
            (List.isPrefixOf_iff_prefix.mp hb2))) (by rw [hb]; simp)
      | false => rfl
  · push_neg at hlen
    have h1 : L.isPrefixOf s = false := by
      cases hb : L.isPrefixOf s with
      | true =>
        have := (List.isPrefixOf_iff_prefix.mp hb).length_le
        omega
      | false => rfl
    have h2 : L.isPrefixOf (s ++ u) = false := by
      cases hb : L.isPrefixOf (s ++ u) with
      | true =>
        exact absurd
          (take_eq_of_prefix_append L s u (Nat.le_of_lt hlen)
            (List.isPrefixOf_iff_prefix.mp hb)) (hS hlen)
      | false => rfl
    rw [h1, h2]

/-- A segment that does not contain the first character of the pattern
contributes no occurrence. -/
theorem countOcc_append_of_head_not_mem (hd : Char) (L seg u : List Char)
    (h : ∀ c ∈ seg, c ≠ hd) :
    countOcc (hd :: L) (seg ++ u) = countOcc (hd :: L) u := by
  induction seg with
  | nil => rfl
  | cons c seg ih =>
    have hc : c ≠ hd := h c (List.mem_cons_self c seg)
    have hfalse : (hd :: L).isPrefixOf (c :: (seg ++ u)) = false := by
      simp [List.isPrefixOf, Ne.symm hc]
    show (if (hd :: L).isPrefixOf (c :: (seg ++ u)) then 1 else 0) +
        countOcc (hd :: L) (seg ++ u) = _
    rw [hfalse, ih (fun c hc2 => h c (List.mem_cons_of_mem _ hc2))]
    simp

theorem noSeedMatch_spec (L A : List Char) (h : noSeedMatch L A = true) :
    ∀ s, s <:+ A → s ≠ [] → s.length < L.length → L.take s.length ≠ s := by
  intro s hs hne hlt heq
  have hall := List.all_eq_true.mp h s ((List.mem_tails s A).mpr hs)
  simp only [Bool.or_eq_true] at hall
  rcases hall with (h1 | h2) | h3
  · exact hne (List.isEmpty_iff.mp h1)
  · exact absurd (of_decide_eq_true h2) (by omega)
  · rw [Bool.not_eq_true', beq_eq_false_iff_ne] at h3
    exact h3 heq

/-- The occurrence count distributes over an append whose left part
cannot seed a straddling match. -/
theorem countOcc_append_split (L A u : List Char)
    (hS : ∀ s, s <:+ A → s ≠ [] → s.length < L.length → L.take s.length ≠ s) :
    countOcc L (A ++ u) = countOcc L A + countOcc L u := by
  induction A with
  | nil => simp [countOcc]
  | cons c A ih =>
    have hS2 : ∀ s, s <:+ A → s ≠ [] → s.length < L.length → L.take s.length ≠ s :=
      fun s hs => hS s (hs.trans (List.suffix_cons c A))
    have hhead : L.isPrefixOf ((c :: A) ++ u) = L.isPrefixOf (c :: A) :=
      isPrefixOf_append_eq L (c :: A) u
        (hS (c :: A) (List.suffix_refl _) (by simp))
    show (if L.isPrefixOf (c :: (A ++ u)) then 1 else 0) + countOcc L (A ++ u) =
      ((if L.isPrefixOf (c :: A) then 1 else 0) + countOcc L A) + countOcc L u
    rw [show c :: (A ++ u) = (c :: A) ++ u from rfl, hhead, ih hS2]
    omega

/-! ## Sanitizer facts -/

theorem sanitize_chars (s : String) : ∀ c ∈ (sanitize s).data, isLowerAlnum c = true := by
  intro c hc
  exact List.of_mem_filter hc

theorem toLower_of_isLowerAlnum (c : Char) (h : isLowerAlnum c = true) :
    Char.toLower c = c := by
  simp only [isLowerAlnum, Bool.or_eq_true, Bool.and_eq_true, decide_eq_true_eq] at h
  rw [Char.toLower, if_neg]
  intro hcon
  obtain ⟨hge, hle⟩ := hcon
  have hge2 : 65 ≤ c.val.toNat := hge
  have hle2 : c.val.toNat ≤ 90 := hle
  rcases h with ⟨h1, h2⟩ | ⟨h1, h2⟩
  · have a1 : 97 ≤ c.val.toNat := h1
    omega
  · have a1 : 48 ≤ c.val.toNat := h1
    have a2 : c.val.toNat ≤ 57 := h2
    omega

theorem sanitize_of_all_lowerAlnum (t : String)
    (h : ∀ c ∈ t.data, isLowerAlnum c = true) : sanitize t = t := by
  apply String.ext
  show ((t.data.map Char.toLower).filter (fun c => isLowerAlnum c)) = t.data
  have hmap : t.data.map Char.toLower = t.data := by
    rw [List.map_congr_left (g := id) fun c hc => toLower_of_isLowerAlnum c (h c hc)]
    exact List.map_id t.data
  rw [hmap]
  exact List.filter_eq_self.mpr h

theorem sanitize_idempotent (s : String) : sanitize (sanitize s) = sanitize s :=
  sanitize_of_all_lowerAlnum (sanitize s) (sanitize_chars s)

theorem derivePackageName_no_lt (appName : String) :
    ∀ c ∈ (derivePackageName appName).data, c ≠ Char.ofNat 60 := by
  intro c hc he
  subst he
  rw [derivePackageName, string_data_append] at hc
  rcases List.mem_append.mp hc with h | h
  · exact absurd h (by decide)
  · exact absurd (sanitize_chars appName _ h) (by decide)

/-- Occurrences of a pattern starting with the character `<` in the
rendered manifest split into occurrences in the fixed prefix and in the
fixed suffix: the interpolated package name contains no `<`, so no
occurrence can start inside it, and no occurrence can straddle the
prefix boundary when `noSeedMatch` certifies that no short suffix of
the prefix seeds the pattern. -/
theorem countOcc_manifest_generic (L t : List Char) (pkg : String) (R : List Char)
    (hL : L = Char.ofNat 60 :: t)
    (hpkg : ∀ c ∈ pkg.data, c ≠ Char.ofNat 60)
    (hseed : noSeedMatch L manifestPre.data = true) :
    countOcc L (manifestPre.data ++ (pkg.data ++ R)) =
      countOcc L manifestPre.data + countOcc L R := by
  rw [countOcc_append_split L manifestPre.data (pkg.data ++ R)
    (noSeedMatch_spec _ _ hseed)]
  rw [hL, countOcc_append_of_head_not_mem _ _ _ _ hpkg]

/-- C5: with both feature flags off the rendered manifest contains
neither optional permission line; with both on it contains each exactly
once; and each conditional interpolation is the whole permission line
or the empty string, never a fragment. -/
theorem manifest_permission_lines (appName : String) :
    countOcc notifLine.data
      (manifestContent (derivePackageName appName) false false).data = 0 ∧
    countOcc musicLine.data
      (manifestContent (derivePackageName appName) false false).data = 0 ∧
    countOcc notifLine.data
      (manifestContent (derivePackageName appName) true true).data = 1 ∧
    countOcc musicLine.data
      (manifestContent (derivePackageName appName) true true).data = 1 ∧
    (∀ b : Bool, (if b then notifLine else "") = notifLine ∨
      (if b then notifLine else "") = "") ∧
    (∀ b : Bool, (if b then musicLine else "") = musicLine ∨
      (if b then musicLine else "") = "") := by
  have hpkg := derivePackageName_no_lt appName
  have hshapeFF : (manifestContent (derivePackageName appName) false false).data =
      manifestPre.data ++ ((derivePackageName appName).data ++
        (manifestMid1.data ++ (manifestMid2.data ++ manifestTail.data))) := by
    simp [manifestContent, string_data_append, List.append_assoc]
  have hshapeTT : (manifestContent (derivePackageName appName) true true).data =
      manifestPre.data ++ ((derivePackageName appName).data ++
        (manifestMid1.data ++ (notifLine.data ++ (manifestMid2.data ++
          (musicLine.data ++ manifestTail.data))))) := by
    simp [manifestContent, string_data_append, List.append_assoc]
  refine ⟨?_, ?_, ?_, ?_, ?_, ?_⟩
  · rw [hshapeFF,
      countOcc_manifest_generic notifLine.data notifLine.data.tail _ _ rfl hpkg (by decide)]
    decide
  · rw [hshapeFF,
      countOcc_manifest_generic musicLine.data musicLine.data.tail _ _ rfl hpkg (by decide)]
    decide
  · rw [hshapeTT,
      countOcc_manifest_generic notifLine.data notifLine.data.tail _ _ rfl hpkg (by decide)]
    decide
  · rw [hshapeTT,
      countOcc_manifest_generic musicLine.data musicLine.data.tail _ _ rfl hpkg (by decide)]
    decide
  · intro b; cases b
    · exact Or.inr rfl
    · exact Or.inl rfl
  · intro b; cases b
    · exact Or.inr rfl
    · exact Or.inl rfl

/-- C6: deriving the identifier fragment is idempotent and its output
contains only lowercase ASCII letters and digits. -/
theorem sanitize_idem_and_alnum (s : String) :
    sanitize (sanitize s) = sanitize s ∧
    ∀ c ∈ (sanitize s).data, isLowerAlnum c = true :=
  ⟨sanitize_idempotent s, sanitize_chars s⟩

/-- C7: the build identifier is the decimal millisecond timestamp, a
dash, and the sanitized app name; the package name is the fixed prefix
`com.webview.` followed by the sanitized app name; for the app name
`My App!` the package name is `com.webview.myapp`, ending in `myapp`. -/
theorem derived_identifiers (appName : String) (nowMillis : Nat) :
    deriveBuildId nowMillis appName = toString nowMillis ++ "-" ++ sanitize appName ∧
    derivePackageName appName = "com.webview." ++ sanitize appName ∧
    derivePackageName "My App!" = "com.webview.myapp" :=
  ⟨rfl, rfl, by decide⟩

/-! ## Base64 round trip and the icon step -/

theorem splitOnChar_of_not_mem (sep : Char) (b : List Char) (h : sep ∉ b) :
    splitOnChar sep b = [b] := by
  induction b with
  | nil => rfl
  | cons c b ih =>
    have hc : ¬ c = sep := fun he => h (he ▸ List.mem_cons_self c b)
    rw [splitOnChar, if_neg hc, ih (fun hm => h (List.mem_cons_of_mem _ hm))]

theorem splitOnChar_append_sep (sep : Char) (a b : List Char) (h : sep ∉ a) :
    splitOnChar sep (a ++ sep :: b) = a :: splitOnChar sep b := by
  induction a with
  | nil => simp [splitOnChar]
  | cons c a ih =>
    have hc : ¬ c = sep := fun he => h (he ▸ List.mem_cons_self c a)
    rw [List.cons_append, splitOnChar, if_neg hc,
      ih (fun hm => h (List.mem_cons_of_mem _ hm))]

theorem sextetOfChar_charOfSextet : ∀ s < 64, sextetOfChar (charOfSextet s) = some s := by
  decide

theorem sextetOfChar_eq : sextetOfChar (Char.ofNat 61) = none := by decide

theorem charOfSextet_ne_comma : ∀ s < 64, charOfSextet s ≠ Char.ofNat 44 := by decide

theorem base64Encode_no_comma : ∀ bs : List Nat, (∀ b ∈ bs, b < 256) →
    Char.ofNat 44 ∉ base64Encode bs
  | [], _ => by simp [base64Encode]
  | [b1], h => by
    have hb1 : b1 < 256 := h b1 (by simp)
    simp only [base64Encode, List.mem_cons, List.not_mem_nil, or_false]
    push_neg
    refine ⟨?_, ?_, ?_, ?_⟩
    · exact fun he => charOfSextet_ne_comma _ (by omega) he.symm
    · exact fun he => charOfSextet_ne_comma _ (by omega) he.symm
    · decide
    · decide
  | [b1, b2], h => by
    have hb1 : b1 < 256 := h b1 (by simp)
    have hb2 : b2 < 256 := h b2 (by simp)
    simp only [base64Encode, List.mem_cons, List.not_mem_nil, or_false]
    push_neg
    refine ⟨?_, ?_, ?_, ?_⟩
    · exact fun he => charOfSextet_ne_comma _ (by omega) he.symm
    · exact fun he => charOfSextet_ne_comma _ (by omega) he.symm
    · exact fun he => charOfSextet_ne_comma _ (by omega) he.symm
    · decide
  | b1 :: b2 :: b3 :: rest, h => by
    have hb1 : b1 < 256 := h b1 (by simp)
    have hb2 : b2 < 256 := h b2 (by simp)
    have hb3 : b3 < 256 := h b3 (by simp)
    have ih := base64Encode_no_comma rest (fun b hb => h b (by simp [hb]))
    simp only [base64Encode, List.mem_cons, not_or]
    refine ⟨?_, ?_, ?_, ?_, fun hm => ih hm⟩
    · exact fun he => charOfSextet_ne_comma _ (by omega) he.symm
    · exact fun he => charOfSextet_ne_comma _ (by omega) he.symm
    · exact fun he => charOfSextet_ne_comma _ (by omega) he.symm
    · exact fun he => charOfSextet_ne_comma _ (by omega) he.symm

theorem base64_roundtrip : ∀ bs : List Nat, (∀ b ∈ bs, b < 256) →
    base64Decode (base64Encode bs) = bs
  | [], _ => rfl
  | [b1], h => by
    have hb1 : b1 < 256 := h b1 (by simp)
    have e1 := sextetOfChar_charOfSextet (b1 / 4) (by omega)
    have e2 := sextetOfChar_charOfSextet (b1 % 4 * 16) (by omega)
    simp only [base64Encode, base64Decode, List.filterMap_cons, e1, e2, sextetOfChar_eq,
      List.filterMap_nil, sextetsToBytes]
    congr 1
    omega
  | [b1, b2], h => by
    have hb1 : b1 < 256 := h b1 (by simp)
    have hb2 : b2 < 256 := h b2 (by simp)
    have e1 := sextetOfChar_charOfSextet (b1 / 4) (by omega)
    have e2 := sextetOfChar_charOfSextet (b1 % 4 * 16 + b2 / 16) (by omega)
    have e3 := sextetOfChar_charOfSextet (b2 % 16 * 4) (by omega)
    simp only [base64Encode, base64Decode, List.filterMap_cons, e1, e2, e3, sextetOfChar_eq,
      List.filterMap_nil, sextetsToBytes]
    congr 1
    · omega
    · congr 1
      omega
  | b1 :: b2 :: b3 :: rest, h => by
    have hb1 : b1 < 256 := h b1 (by simp)
    have hb2 : b2 < 256 := h b2 (by simp)
    have hb3 : b3 < 256 := h b3 (by simp)
    have ih := base64_roundtrip rest (fun b hb => h b (by simp [hb]))
    have e1 := sextetOfChar_charOfSextet (b1 / 4) (by omega)
    have e2 := sextetOfChar_charOfSextet (b1 % 4 * 16 + b2 / 16) (by omega)
    have e3 := sextetOfChar_charOfSextet (b2 % 16 * 4 + b3 / 64) (by omega)
    have e4 := sextetOfChar_charOfSextet (b3 % 64) (by omega)
    simp only [base64Decode] at ih
    simp only [base64Encode, base64Decode, List.filterMap_cons, e1, e2, e3, e4,
      sextetsToBytes, ih]
    simp only [List.cons.injEq, and_true]
    exact ⟨by omega, by omega, by omega⟩

theorem mkImageDataUri_data (bytes : List Nat) :
    (mkImageDataUri bytes).data =
      "data:image/png;base64".data ++ Char.ofNat 44 :: base64Encode bytes := by
  show "data:image/png;base64,".data ++ base64Encode bytes = _
  rw [show "data:image/png;base64,".data =
    "data:image/png;base64".data ++ [Char.ofNat 44] from by decide, List.append_assoc]
  rfl

theorem iconEntries_mkImageDataUri (bytes : List Nat) (hb : ∀ b ∈ bytes, b < 256) :
    iconEntries (mkImageDataUri bytes) = .ok [(mipmapIconPath, .bin bytes)] := by
  have hne : mkImageDataUri bytes ≠ "" := by
    intro he
    have := congrArg String.data he
    rw [mkImageDataUri_data] at this
    simp at this
  have hpre : "data:image".data.isPrefixOf (mkImageDataUri bytes).data = true := by
    apply List.isPrefixOf_iff_prefix.mpr
    rw [mkImageDataUri_data]
    exact (List.isPrefixOf_iff_prefix.mp (by decide :
      "data:image".data.isPrefixOf "data:image/png;base64".data = true)).trans
      (List.prefix_append _ _)
  rw [iconEntries, if_neg hne, if_pos hpre, mkImageDataUri_data,
    splitOnChar_append_sep _ _ _ (by decide),
    splitOnChar_of_not_mem _ _ (base64Encode_no_comma bytes hb)]
  simp [base64_roundtrip bytes hb]

/-- C2 (amended): an icon value that does not declare the `data:image`
prefix is silently skipped — the icon step adds no entry and raises no
failure; a well-formed image data URI decodes to exactly the
base64-decoded payload after the comma, so wrapping bytes in a data URI
and decoding reproduces the original bytes. -/
theorem icon_decode_behavior :
    (∀ icon : String, ¬ ("data:image".data.isPrefixOf icon.data = true) →
      iconEntries icon = .ok []) ∧
    (∀ bytes : List Nat, (∀ b ∈ bytes, b < 256) →
      iconEntries (mkImageDataUri bytes) = .ok [(mipmapIconPath, .bin bytes)]) := by
  constructor
  · intro icon hpre
    rw [iconEntries]
    by_cases he : icon = ""
    · rw [if_pos he]
    · rw [if_neg he, if_neg hpre]
  · exact iconEntries_mkImageDataUri

/-- Witness for C2 at concrete inputs: the bytes of `Man` survive the
data-URI round trip, and a non-data-URI icon yields no entry and no
error. -/
theorem icon_decode_behavior_witness :
    iconEntries (mkImageDataUri [77, 97, 110]) =
      .ok [(mipmapIconPath, .bin [77, 97, 110])] ∧
    iconEntries "notadatauri" = .ok [] :=
  ⟨icon_decode_behavior.2 [77, 97, 110] (by decide),
   icon_decode_behavior.1 "notadatauri" (by decide)⟩

/-- C2 counterexample: for the icon `x`, which does not start with
`data:image`, decoding does not fail with any error — the whole
pipeline succeeds, merely omitting the icon entry. -/
theorem icon_bad_format_no_failure :
    "data:image".data.isPrefixOf cfgBadIcon.icon.data = false ∧
    (generateApp cfgBadIcon 0 okEnv).1 =
      .ok ⟨"https://storage.example/0-demo/app-debug.apk", "Demo", "com.webview.demo"⟩ := by
  constructor
  · decide
  · rfl

/-! ## Handler validation (C1) -/

/-- C1: a config with a falsy websiteUrl, appName, or icon is answered
with the 400 `Missing required fields` response before the pipeline
runs, and the event trace is empty — no bucket listing, bucket
creation, or upload is performed. -/
theorem missing_fields_rejected (cfg : AppConfig) (nowMillis : Nat) (env : StorageEnv)
    (h : cfg.websiteUrl = "" ∨ cfg.appName = "" ∨ cfg.icon = "") :
    handlePost cfg nowMillis env =
      ((400, RespBody.errorMsg "Missing required fields"), []) := by
  rw [handlePost, if_pos h]

/-- Witness for C1: a request with an empty appName. -/
theorem missing_fields_rejected_witness :
    handlePost ⟨"https://example.com", "", "data:image/png;base64,AAAA", true, false⟩
      5 okEnv = ((400, RespBody.errorMsg "Missing required fields"), []) :=
  missing_fields_rejected _ 5 okEnv (Or.inr (Or.inl rfl))

/-! ## Retry behavior (C3, C9) -/

/-- Reduction of `generateApp` when the bucket listing already contains
`android-apps`: one listing event, then exactly the retry loop. -/
theorem generateApp_bucket_present (cfg : AppConfig) (nowMillis : Nat)
    (pl : List (String × FileContent)) (lbe cbe : Option String)
    (f : Nat → UploadOutcome) (url : String → String)
    (hA : archiveEntries cfg = .ok pl) :
    generateApp cfg nowMillis ⟨some ["android-apps"], lbe, cbe, f, url⟩ =
      ((match (retryLoop f (uploadPathOf cfg nowMillis) pl).1 with
        | some m => .error (.uploadFailed (uploadFailMsg m))
        | none => .ok ⟨url (uploadPathOf cfg nowMillis), cfg.appName,
            derivePackageName cfg.appName⟩),
       Event.listBuckets :: (retryLoop f (uploadPathOf cfg nowMillis) pl).2) := by
  rw [generateApp, hA]
  rw [show deriveBuildId nowMillis cfg.appName ++ "/app-debug.apk" =
    uploadPathOf cfg nowMillis from rfl]
  rcases hr : retryLoop f (uploadPathOf cfg nowMillis) pl with ⟨e, tr⟩
  cases e <;>
    simp [hr, show (["android-apps"] : List String).contains "android-apps" = true from
      by decide]

/-- C3: with the bucket present, (i) three consecutive error results
make the publish call upload exactly three times and fail with the
exhaustion error carrying the last message; (ii) failing twice and then
succeeding waits 1000 ms and 2000 ms before attempts 2 and 3 and
returns success after exactly three uploads; (iii) a first-attempt
success stops the loop after a single upload. -/
theorem upload_retry_behavior (cfg : AppConfig) (nowMillis : Nat)
    (pl : List (String × FileContent)) (url : String → String) (m0 m1 m2 : String)
    (hA : archiveEntries cfg = .ok pl) (hm : m2 ≠ "") :
    (generateApp cfg nowMillis ⟨some ["android-apps"], none, none,
        fun i => .err (if i = 0 then m0 else if i = 1 then m1 else m2), url⟩ =
      (.error (.uploadFailed ("Failed to upload APK: " ++ m2)),
       [Event.listBuckets,
        Event.upload (uploadPathOf cfg nowMillis) pl, Event.sleep 1000,
        Event.upload (uploadPathOf cfg nowMillis) pl, Event.sleep 2000,
        Event.upload (uploadPathOf cfg nowMillis) pl, Event.sleep 3000])) ∧
    (generateApp cfg nowMillis ⟨some ["android-apps"], none, none,
        fun i => if i = 0 then .err m0 else if i = 1 then .err m1 else .ok, url⟩ =
      (.ok ⟨url (uploadPathOf cfg nowMillis), cfg.appName, derivePackageName cfg.appName⟩,
       [Event.listBuckets,
        Event.upload (uploadPathOf cfg nowMillis) pl, Event.sleep 1000,
        Event.upload (uploadPathOf cfg nowMillis) pl, Event.sleep 2000,
        Event.upload (uploadPathOf cfg nowMillis) pl])) ∧
    (∀ f : Nat → UploadOutcome, f 0 = .ok →
      generateApp cfg nowMillis ⟨some ["android-apps"], none, none, f, url⟩ =
        (.ok ⟨url (uploadPathOf cfg nowMillis), cfg.appName, derivePackageName cfg.appName⟩,
         [Event.listBuckets, Event.upload (uploadPathOf cfg nowMillis) pl])) ∧
    (∀ f : Nat → UploadOutcome, f 0 = .err m0 → f 1 = .ok →
      generateApp cfg nowMillis ⟨some ["android-apps"], none, none, f, url⟩ =
        (.ok ⟨url (uploadPathOf cfg nowMillis), cfg.appName, derivePackageName cfg.appName⟩,
         [Event.listBuckets, Event.upload (uploadPathOf cfg nowMillis) pl, Event.sleep 1000,
          Event.upload (uploadPathOf cfg nowMillis) pl])) := by
  refine ⟨?_, ?_, ?_, ?_⟩
  · rw [generateApp_bucket_present cfg nowMillis pl none none _ url hA]
    rw [show retryLoop (fun i => UploadOutcome.err (if i = 0 then m0 else if i = 1 then m1 else m2))
      (uploadPathOf cfg nowMillis) pl =
      (some m2,
       [Event.upload (uploadPathOf cfg nowMillis) pl, Event.sleep 1000,
        Event.upload (uploadPathOf cfg nowMillis) pl, Event.sleep 2000,
        Event.upload (uploadPathOf cfg nowMillis) pl, Event.sleep 3000]) from rfl]
    simp [uploadFailMsg, hm]
  · rw [generateApp_bucket_present cfg nowMillis pl none none _ url hA]
    rw [show retryLoop (fun i => if i = 0 then UploadOutcome.err m0
        else if i = 1 then UploadOutcome.err m1 else UploadOutcome.ok)
      (uploadPathOf cfg nowMillis) pl =
      (none,
       [Event.upload (uploadPathOf cfg nowMillis) pl, Event.sleep 1000,
        Event.upload (uploadPathOf cfg nowMillis) pl, Event.sleep 2000,
        Event.upload (uploadPathOf cfg nowMillis) pl]) from rfl]
  · intro f hf
    rw [generateApp_bucket_present cfg nowMillis pl none none f url hA]
    rw [show retryLoop f (uploadPathOf cfg nowMillis) pl =
      retryAux f (uploadPathOf cfg nowMillis) pl 3 0 none from rfl]
    rw [retryAux, hf]
  · intro f hf0 hf1
    rw [generateApp_bucket_present cfg nowMillis pl none none f url hA]
    rw [show retryLoop f (uploadPathOf cfg nowMillis) pl =
      retryAux f (uploadPathOf cfg nowMillis) pl 3 0 none from rfl]
    rw [retryAux, hf0]
    dsimp only
    rw [retryAux, hf1]

/-- Witness for C3: with three error results the run performs exactly
three uploads, the linear backoff sleeps, and the exhaustion failure
carrying the last message. -/
theorem upload_retry_behavior_witness :
    generateApp cfgDemo 0 ⟨some ["android-apps"], none, none,
        fun i => .err (if i = 0 then "e0" else if i = 1 then "e1" else "e2"),
        fun p => "https://storage.example/" ++ p⟩ =
      (.error (.uploadFailed "Failed to upload APK: e2"),
       [Event.listBuckets,
        Event.upload (uploadPathOf cfgDemo 0) (payloadOf cfgDemo), Event.sleep 1000,
        Event.upload (uploadPathOf cfgDemo 0) (payloadOf cfgDemo), Event.sleep 2000,
        Event.upload (uploadPathOf cfgDemo 0) (payloadOf cfgDemo), Event.sleep 3000]) :=
  (upload_retry_behavior cfgDemo 0 (payloadOf cfgDemo) _ "e0" "e1" "e2" rfl
    (by decide)).1

/-- C9: when attempts fail by returning an error result the backoff
sleep runs after every failure including the third and final one
(1000, 2000, then 3000 ms); when attempts fail by throwing, the catch
block skips the sleep entirely, so the trace has three uploads and no
sleep at all. -/
theorem backoff_schedule (cfg : AppConfig) (nowMillis : Nat)
    (pl : List (String × FileContent)) (url : String → String) (m : String)
    (hA : archiveEntries cfg = .ok pl) (hm : m ≠ "") :
    ((generateApp cfg nowMillis
        ⟨some ["android-apps"], none, none, fun _ => .err m, url⟩).2.filterMap
          eventSleepMs = [1000, 2000, 3000]) ∧
    (generateApp cfg nowMillis
        ⟨some ["android-apps"], none, none, fun _ => .thrown m, url⟩ =
      (.error (.uploadFailed ("Failed to upload APK: " ++ m)),
       [Event.listBuckets,
        Event.upload (uploadPathOf cfg nowMillis) pl,
        Event.upload (uploadPathOf cfg nowMillis) pl,
        Event.upload (uploadPathOf cfg nowMillis) pl])) := by
  constructor
  · rw [generateApp_bucket_present cfg nowMillis pl none none _ url hA]
    rw [show retryLoop (fun _ => UploadOutcome.err m) (uploadPathOf cfg nowMillis) pl =
      (some m,
       [Event.upload (uploadPathOf cfg nowMillis) pl, Event.sleep 1000,
        Event.upload (uploadPathOf cfg nowMillis) pl, Event.sleep 2000,
        Event.upload (uploadPathOf cfg nowMillis) pl, Event.sleep 3000]) from rfl]
    simp [eventSleepMs]
  · rw [generateApp_bucket_present cfg nowMillis pl none none _ url hA]
    rw [show retryLoop (fun _ => UploadOutcome.thrown m) (uploadPathOf cfg nowMillis) pl =
      (some m,
       [Event.upload (uploadPathOf cfg nowMillis) pl,
        Event.upload (uploadPathOf cfg nowMillis) pl,
        Event.upload (uploadPathOf cfg nowMillis) pl]) from rfl]
    simp [uploadFailMsg, hm]

/-- Witness for C9: the always-throwing collaborator produces three
uploads and no sleeps. -/
theorem backoff_schedule_witness :
    generateApp cfgDemo 0 ⟨some ["android-apps"], none, none,
        fun _ => .thrown "boom", fun p => "https://storage.example/" ++ p⟩ =
      (.error (.uploadFailed "Failed to upload APK: boom"),
       [Event.listBuckets,
        Event.upload (uploadPathOf cfgDemo 0) (payloadOf cfgDemo),
        Event.upload (uploadPathOf cfgDemo 0) (payloadOf cfgDemo),
        Event.upload (uploadPathOf cfgDemo 0) (payloadOf cfgDemo)]) :=
  (backoff_schedule cfgDemo 0 (payloadOf cfgDemo) _ "boom" rfl (by decide)).2

/-- C10: a bucket listing that returns no data — which is what the
source observes both on a null data field and on a listing error, since
`result.error` is never read — makes the publisher treat the bucket as
absent and call createBucket instead of failing at the listing step;
only an error reported by createBucket itself aborts the publish. -/
theorem bucket_listing_error_ignored (cfg : AppConfig) (nowMillis : Nat)
    (pl : List (String × FileContent)) (url : String → String)
    (hA : archiveEntries cfg = .ok pl) :
    (∀ lbe : Option String, ∀ m : String,
      generateApp cfg nowMillis ⟨none, lbe, some m, fun _ => .ok, url⟩ =
        (.error (.bucketCreateFailed ("Failed to create storage bucket: " ++ m)),
         [Event.listBuckets, Event.createBucket "android-apps"])) ∧
    (∀ lbe : Option String,
      generateApp cfg nowMillis ⟨none, lbe, none, fun _ => .ok, url⟩ =
        (.ok ⟨url (uploadPathOf cfg nowMillis), cfg.appName, derivePackageName cfg.appName⟩,
         [Event.listBuckets, Event.createBucket "android-apps",
          Event.upload (uploadPathOf cfg nowMillis) pl])) := by
  constructor
  · intro lbe m
    rw [generateApp, hA]
    simp
  · intro lbe
    rw [generateApp, hA,
      show deriveBuildId nowMillis cfg.appName ++ "/app-debug.apk" =
        uploadPathOf cfg nowMillis from rfl]
    simp [show retryLoop (fun _ => UploadOutcome.ok) (uploadPathOf cfg nowMillis) pl =
      (none, [Event.upload (uploadPathOf cfg nowMillis) pl]) from rfl]

/-- Witness for C10: with a failed listing (error message present, no
data) and a healthy createBucket, the publish succeeds after creating
the bucket. -/
theorem bucket_listing_error_ignored_witness :
    generateApp cfgDemo 0 ⟨none, some "listing failed", none, fun _ => .ok,
        fun p => "https://storage.example/" ++ p⟩ =
      (.ok ⟨"https://storage.example/" ++ uploadPathOf cfgDemo 0, cfgDemo.appName,
        derivePackageName cfgDemo.appName⟩,
       [Event.listBuckets, Event.createBucket "android-apps",
        Event.upload (uploadPathOf cfgDemo 0) (payloadOf cfgDemo)]) :=
  (bucket_listing_error_ignored cfgDemo 0 (payloadOf cfgDemo) _ rfl).2
    (some "listing failed")

/-! ## Determinism across storage environments (C8) -/

theorem uploadEvents_retryAux (f : Nat → UploadOutcome) (path : String)
    (pl : List (String × FileContent)) :
    ∀ fuel i last, ∀ x ∈ uploadEvents (retryAux f path pl fuel i last).2,
      x = (path, pl) := by
  intro fuel
  induction fuel with
  | zero =>
    intro i last x hx
    simp [retryAux, uploadEvents] at hx
  | succ fuel ih =>
    intro i last x hx
    rcases hf : f i with _ | m | m <;> rw [retryAux, hf] at hx
    · simpa [uploadEvents] using hx
    · simp only [uploadEvents, List.filterMap_cons] at hx
      rcases List.mem_cons.mp hx with h | h
      · exact h
      · exact ih (i + 1) (some m) x h
    · simp only [uploadEvents, List.filterMap_cons] at hx
      rcases List.mem_cons.mp hx with h | h
      · exact h
      · exact ih (i + 1) (some m) x h

theorem uploads_determined (cfg : AppConfig) (nowMillis : Nat) (env : StorageEnv) :
    ∀ x ∈ uploadEvents (generateApp cfg nowMillis env).2,
      x = (uploadPathOf cfg nowMillis, payloadOf cfg) := by
  intro x hx
  rcases hA : archiveEntries cfg with e | pl
  · rw [generateApp, hA] at hx
    simp [uploadEvents] at hx
  · have hpl : payloadOf cfg = pl := by rw [payloadOf, hA]
    rw [generateApp, hA,
      show deriveBuildId nowMillis cfg.appName ++ "/app-debug.apk" =
        uploadPathOf cfg nowMillis from rfl] at hx
    dsimp only at hx
    rw [hpl]
    rcases hr : retryLoop env.uploadOutcome (uploadPathOf cfg nowMillis) pl with ⟨e2, tr⟩
    have htr : ∀ y ∈ uploadEvents tr, y = (uploadPathOf cfg nowMillis, pl) := by
      intro y hy
      exact uploadEvents_retryAux env.uploadOutcome (uploadPathOf cfg nowMillis) pl 3 0 none
        y (by rw [show (retryAux env.uploadOutcome (uploadPathOf cfg nowMillis) pl 3 0
          none).2 = tr from congrArg Prod.snd hr]; exact hy)
    rw [hr] at hx
    by_cases hfound : ((env.listBucketsData.getD []).contains "android-apps") = true
    · simp only [hfound, Bool.true_eq_false, false_and, if_false, if_true] at hx
      cases e2 <;>
        simp only [uploadEvents, List.filterMap_cons, List.filterMap_append] at hx htr ⊢ <;>
        simpa using htr x (by simpa [uploadEvents] using hx)
    · rw [Bool.not_eq_true] at hfound
      simp only [hfound, eq_self_iff_true, true_and, Bool.false_eq_true, if_false] at hx
      by_cases hcbe : env.createBucketError.isSome = true
      · rw [if_pos hcbe] at hx
        simp [uploadEvents] at hx
      · rw [if_neg hcbe] at hx
        cases e2 <;>
          simp only [uploadEvents, List.filterMap_cons, List.filterMap_append] at hx htr ⊢ <;>
          simpa using htr x (by simpa [uploadEvents] using hx)

theorem success_record_determined (cfg : AppConfig) (nowMillis : Nat) (env : StorageEnv)
    (r : GenSuccess) (h : (generateApp cfg nowMillis env).1 = .ok r) :
    r.appName = cfg.appName ∧ r.packageName = derivePackageName cfg.appName := by
  rcases hA : archiveEntries cfg with e | pl
  · rw [generateApp, hA] at h
    exact absurd h (by simp)
  · rw [generateApp, hA] at h
    dsimp only at h
    rcases hr : retryLoop env.uploadOutcome
        (deriveBuildId nowMillis cfg.appName ++ "/app-debug.apk") pl with ⟨e2, tr⟩
    rw [hr] at h
    by_cases hc : ((env.listBucketsData.getD []).contains "android-apps") = false ∧
        env.createBucketError.isSome = true
    · rw [if_pos hc] at h
      exact absurd h (by simp)
    · rw [if_neg hc] at h
      cases e2 with
      | some m => exact absurd h (by simp)
      | none =>
        simp only [Except.ok.injEq] at h
        rw [← h]
        exact ⟨rfl, rfl⟩

/-- C8: for a fixed config and timestamp, the identifiers, rendered
files, and archive bytes are pure functions of the two — across any two
runs against arbitrary storage environments, every upload event carries
the same object path (the derived build id) and the same archive
payload (every rendered file and the icon bytes), and any two
successful responses agree on the reported appName and packageName. -/
theorem run_determinism (cfg : AppConfig) (nowMillis : Nat) (env1 env2 : StorageEnv)
    (p q : String × List (String × FileContent))
    (hp : p ∈ uploadEvents (generateApp cfg nowMillis env1).2)
    (hq : q ∈ uploadEvents (generateApp cfg nowMillis env2).2) :
    p = q ∧
    (∀ r1 r2 : GenSuccess, (generateApp cfg nowMillis env1).1 = .ok r1 →
      (generateApp cfg nowMillis env2).1 = .ok r2 →
      r1.appName = r2.appName ∧ r1.packageName = r2.packageName) := by
  constructor
  · rw [uploads_determined cfg nowMillis env1 p hp,
      uploads_determined cfg nowMillis env2 q hq]
  · intro r1 r2 h1 h2
    obtain ⟨ha1, hb1⟩ := success_record_determined cfg nowMillis env1 r1 h1
    obtain ⟨ha2, hb2⟩ := success_record_determined cfg nowMillis env2 r2 h2
    exact ⟨ha1.trans ha2.symm, hb1.trans hb2.symm⟩

/-- Reduction of `generateApp` when the bucket listing returns no data
and bucket creation succeeds. -/
theorem generateApp_bucket_absent (cfg : AppConfig) (nowMillis : Nat)
    (pl : List (String × FileContent)) (lbe : Option String)
    (f : Nat → UploadOutcome) (url : String → String)
    (hA : archiveEntries cfg = .ok pl) :
    generateApp cfg nowMillis ⟨none, lbe, none, f, url⟩ =
      ((match (retryLoop f (uploadPathOf cfg nowMillis) pl).1 with
        | some m => .error (.uploadFailed (uploadFailMsg m))
        | none => .ok ⟨url (uploadPathOf cfg nowMillis), cfg.appName,
            derivePackageName cfg.appName⟩),
       Event.listBuckets :: Event.createBucket "android-apps" ::
         (retryLoop f (uploadPathOf cfg nowMillis) pl).2) := by
  rw [generateApp, hA,
    show deriveBuildId nowMillis cfg.appName ++ "/app-debug.apk" =
      uploadPathOf cfg nowMillis from rfl]
  rcases hr : retryLoop f (uploadPathOf cfg nowMillis) pl with ⟨e, tr⟩
  cases e <;> simp [hr]

/-- Witness for C8: runs of the demo config against two different
environments at the same timestamp. -/
theorem run_determinism_witness :
    ((uploadPathOf cfgDemo 0, payloadOf cfgDemo) =
      (uploadPathOf cfgDemo 0, payloadOf cfgDemo)) ∧
    (∀ r1 r2 : GenSuccess, (generateApp cfgDemo 0 okEnv).1 = .ok r1 →
      (generateApp cfgDemo 0 altEnv).1 = .ok r2 →
      r1.appName = r2.appName ∧ r1.packageName = r2.packageName) :=
  run_determinism cfgDemo 0 okEnv altEnv
    (uploadPathOf cfgDemo 0, payloadOf cfgDemo)
    (uploadPathOf cfgDemo 0, payloadOf cfgDemo)
    (by
      rw [show okEnv = (⟨some ["android-apps"], none, none, fun _ => UploadOutcome.ok,
          fun p => "https://storage.example/" ++ p⟩ : StorageEnv) from rfl,
        generateApp_bucket_present cfgDemo 0 (payloadOf cfgDemo) none none _ _ rfl,
        show retryLoop (fun _ => UploadOutcome.ok) (uploadPathOf cfgDemo 0)
          (payloadOf cfgDemo) =
          (none, [Event.upload (uploadPathOf cfgDemo 0) (payloadOf cfgDemo)]) from rfl]
      simp [uploadEvents])
    (by
      rw [show altEnv = (⟨none, some "listing down", none,
          fun i => if i = 0 then UploadOutcome.err "once" else UploadOutcome.ok,
          fun p => "alt://" ++ p⟩ : StorageEnv) from rfl,
        generateApp_bucket_absent cfgDemo 0 (payloadOf cfgDemo) (some "listing down") _ _ rfl,
        show retryLoop (fun i => if i = 0 then UploadOutcome.err "once" else UploadOutcome.ok)
          (uploadPathOf cfgDemo 0) (payloadOf cfgDemo) =
          (none, [Event.upload (uploadPathOf cfgDemo 0) (payloadOf cfgDemo),
            Event.sleep 1000,
            Event.upload (uploadPathOf cfgDemo 0) (payloadOf cfgDemo)]) from rfl]
      simp [uploadEvents])

/-! ## Archive layout (C4) -/

theorem javaMainActivityPath_take (pkg : String) :
    (javaMainActivityPath pkg).data.take 18 = "app/src/main/java/".data := by
  rw [javaMainActivityPath, string_data_append, string_data_append, List.append_assoc]
  exact List.take_left' (by decide)

theorem javaPath_ne_fixed (pkg : String) (s : String)
    (h : s.data.take 18 ≠ "app/src/main/java/".data) :
    javaMainActivityPath pkg ≠ s := by
  intro he
  apply h
  rw [← he, javaMainActivityPath_take]

/-- C4 (amended): for every config whose icon is a well-formed image
data URI, the assembled archive consists of exactly the fixed ten
entries — the two gradle descriptors, the wrapper properties, the
manifest, the MainActivity source at the package-name-derived path, the
layout, strings, styles, and network-security-config resources, and the
icon bytes at the fixed mipmap path — in insertion order and with
pairwise distinct paths; unpacking this archive model is the identity,
so contents round-trip byte-identically.  When the icon merely passes
the presence check but is not an image data URI, the icon entry is
omitted. -/
theorem archive_exact_paths (cfg : AppConfig) (payload : List Char)
    (hicon : "data:image".data.isPrefixOf cfg.icon.data = true)
    (hsplit : (splitOnChar (Char.ofNat 44) cfg.icon.data).get? 1 = some payload) :
    archiveEntries cfg =
      .ok [("app/src/main/AndroidManifest.xml",
             .text (manifestContent (derivePackageName cfg.appName)
               cfg.enableNotifications cfg.enableMusicControls)),
           ("app/src/main/res/xml/network_security_config.xml",
             .text networkSecurityConfig),
           (javaMainActivityPath (derivePackageName cfg.appName),
             .text (mainActivityContent (derivePackageName cfg.appName) cfg.websiteUrl)),
           ("app/src/main/res/layout/activity_main.xml", .text activityMainLayout),
           ("app/src/main/res/values/strings.xml", .text (stringsContent cfg.appName)),
           ("app/src/main/res/values/styles.xml", .text stylesContent),
           (mipmapIconPath, .bin (base64Decode payload)),
           ("app/build.gradle", .text (buildGradleContent (derivePackageName cfg.appName))),
           ("settings.gradle", .text (settingsGradleContent cfg.appName)),
           ("gradle/wrapper/gradle-wrapper.properties", .text gradleWrapperContent)] ∧
    ["app/src/main/AndroidManifest.xml",
     "app/src/main/res/xml/network_security_config.xml",
     javaMainActivityPath (derivePackageName cfg.appName),
     "app/src/main/res/layout/activity_main.xml",
     "app/src/main/res/values/strings.xml",
     "app/src/main/res/values/styles.xml",
     mipmapIconPath,
     "app/build.gradle",
     "settings.gradle",
     "gradle/wrapper/gradle-wrapper.properties"].Nodup := by
  constructor
  · have hne : cfg.icon ≠ "" := by
      intro he
      rw [he] at hicon
      exact absurd hicon (by decide)
    rw [archiveEntries, iconEntries, if_neg hne, if_pos hicon, hsplit]
    rfl
  · rw [show (["app/src/main/AndroidManifest.xml",
        "app/src/main/res/xml/network_security_config.xml",
        javaMainActivityPath (derivePackageName cfg.appName),
        "app/src/main/res/layout/activity_main.xml",
        "app/src/main/res/values/strings.xml",
        "app/src/main/res/values/styles.xml",
        mipmapIconPath,
        "app/build.gradle",
        "settings.gradle",
        "gradle/wrapper/gradle-wrapper.properties"] : List String) =
      ["app/src/main/AndroidManifest.xml",
       "app/src/main/res/xml/network_security_config.xml"] ++
      javaMainActivityPath (derivePackageName cfg.appName) ::
      ["app/src/main/res/layout/activity_main.xml",
       "app/src/main/res/values/strings.xml",
       "app/src/main/res/values/styles.xml",
       mipmapIconPath,
       "app/build.gradle",
       "settings.gradle",
       "gradle/wrapper/gradle-wrapper.properties"] from rfl, List.nodup_middle,
      List.nodup_cons]
    constructor
    · intro hm
      simp only [List.mem_append, List.mem_cons, List.not_mem_nil, or_false] at hm
      rcases hm with (h | h) | h | h | h | h | h | h | h <;>
        exact javaPath_ne_fixed _ _ (by decide) h
    · decide

/-- Witness for C4 at the demo config, whose icon payload is `AAAA`. -/
theorem archive_exact_paths_witness :
    archiveEntries cfgDemo =
      .ok [("app/src/main/AndroidManifest.xml",
             .text (manifestContent (derivePackageName cfgDemo.appName)
               cfgDemo.enableNotifications cfgDemo.enableMusicControls)),
           ("app/src/main/res/xml/network_security_config.xml",
             .text networkSecurityConfig),
           (javaMainActivityPath (derivePackageName cfgDemo.appName),
             .text (mainActivityContent (derivePackageName cfgDemo.appName)
               cfgDemo.websiteUrl)),
           ("app/src/main/res/layout/activity_main.xml", .text activityMainLayout),
           ("app/src/main/res/values/strings.xml", .text (stringsContent cfgDemo.appName)),
           ("app/src/main/res/values/styles.xml", .text stylesContent),
           (mipmapIconPath, .bin (base64Decode "AAAA".data)),
           ("app/build.gradle",
             .text (buildGradleContent (derivePackageName cfgDemo.appName))),
           ("settings.gradle", .text (settingsGradleContent cfgDemo.appName)),
           ("gradle/wrapper/gradle-wrapper.properties", .text gradleWrapperContent)] :=
  (archive_exact_paths cfgDemo "AAAA".data (by decide) (by decide)).1

/-- C4 counterexample: the config with icon `x` passes the presence
validation, yet its archive has no entry at the fixed mipmap icon path,
so the claim fails for a config that merely passes presence checks. -/
theorem archive_missing_icon_counterexample :
    (cfgBadIcon.websiteUrl ≠ "" ∧ cfgBadIcon.appName ≠ "" ∧ cfgBadIcon.icon ≠ "") ∧
    archiveEntries cfgBadIcon = .ok (payloadOf cfgBadIcon) ∧
    mipmapIconPath ∉ (payloadOf cfgBadIcon).map Prod.fst := by
  refine ⟨by decide, rfl, by decide⟩

end WebToAndroid
